import Mathlib

/-!
# check-libs.js: dependency presence checker

A shallow embedding of `src/sample/check-libs.js`.  The script defines three
functions `checkZstd`, `checkCwebp` and `checkFfmpeg`, each of which calls
`exec(command, callback)` from `child_process`, and calls the three of them
at module top level.

The Node.js runtime is modelled by explicit state passing:

* `Proc` is the observable history of the process (every child process
  launched, every line written to standard output and the error stream, in
  the order in which it happened) together with the exit status once
  `process.exit` has been called;
* `Runtime` adds the callbacks registered by `exec` that have not run yet;
* the module top level runs to completion first (JavaScript never interleaves
  a callback with synchronous code), then the event loop hands each finished
  child process to its callback, in the order in which the children finish.
-/

namespace CheckLibs

/-- The error object handed to the callback of `exec`: the child could not be
spawned, it ended with a non-zero exit code, or it was ended by a signal.
A successful child gives `null`, modelled as `none`. -/
inductive ExecError where
  | spawnFailure (errno : String)
  | nonZeroExit (code : Nat)
  | killedBySignal (signal : String)
  deriving DecidableEq, Repr

/-- What the process does that can be seen from outside, one entry per action. -/
inductive Event where
  | spawn (command : String)
  | stdout (line : String)
  | stderr (line : String)
  deriving DecidableEq, Repr

/-- The process: its history so far, and the exit status once it has exited. -/
structure Proc where
  events : List Event
  exited : Option Nat
  deriving DecidableEq, Repr

/-- The module `os`; `os.platform()` is constant during a run. -/
structure Os where
  platform : String
  deriving DecidableEq, Repr

/-- JavaScript truthiness of the `error` argument: `null` is falsy, every
error object is truthy. -/
def truthy (error : Option ExecError) : Bool :=
  error.isSome

/-- `console.log(line)`: a process that has exited writes nothing more. -/
def consoleLog (line : String) (p : Proc) : Proc :=
  match p.exited with
  | some _ => p
  | none => { p with events := p.events ++ [Event.stdout line] }

/-- `console.error(line)`: a process that has exited writes nothing more. -/
def consoleError (line : String) (p : Proc) : Proc :=
  match p.exited with
  | some _ => p
  | none => { p with events := p.events ++ [Event.stderr line] }

/-- `process.exit(code)`: the first call ends the process. -/
def processExit (code : Nat) (p : Proc) : Proc :=
  match p.exited with
  | some _ => p
  | none => { p with exited := some code }

/-- A callback given to `exec`. -/
abbrev Callback := Option ExecError → Proc → Proc

/-- The process together with the callbacks of the children still running,
each stored under the command of its child, in launch order. -/
structure Runtime where
  proc : Proc
  pending : List (String × Callback)

/-- `exec(command, callback)`: launch the child now, keep the callback for
later.  Nothing is launched by a process that has exited. -/
def exec (command : String) (callback : Callback) (rt : Runtime) : Runtime :=
  match rt.proc.exited with
  | some _ => rt
  | none =>
    { proc := { rt.proc with events := rt.proc.events ++ [Event.spawn command] }
      pending := rt.pending ++ [(command, callback)] }

/-- The callback of `checkZstd` (lines 5-27 of the source). -/
def zstdCallback (os : Os) : Callback := fun error p =>
  if truthy error then
    let p := consoleError
      "Zstd CLI is not installed. Please install it before proceeding:" p
    let p :=
      if os.platform = "darwin" then
        consoleError "For macOS: brew install zstd" p
      else if os.platform = "linux" then
        consoleError "For Linux: sudo apt-get install zstd" p
      else if os.platform = "win32" then
        consoleError
          "For Windows: choco install zstandard or download from https://github.com/facebook/zstd/releases"
          p
      else
        consoleError
          "Unsupported OS. Please refer to the Zstandard documentation for installation instructions."
          p
    processExit 1 p
  else
    consoleLog "Zstd CLI is installed." p

/-- The callback of `checkCwebp` (lines 31-53 of the source). -/
def cwebpCallback (os : Os) : Callback := fun error p =>
  if truthy error then
    let p := consoleError
      "cwebp (WebP encoder) is not installed. Please install it before proceeding:" p
    let p :=
      if os.platform = "darwin" then
        consoleError "For macOS: brew install webp" p
      else if os.platform = "linux" then
        consoleError "For Linux: sudo apt-get install webp" p
      else if os.platform = "win32" then
        consoleError
          "For Windows: choco install webp or download from https://developers.google.com/speed/webp/download"
          p
      else
        consoleError
          "Unsupported OS. Please refer to the WebP documentation for installation instructions."
          p
    processExit 1 p
  else
    consoleLog "cwebp CLI is installed." p

/-- The callback of `checkFfmpeg` (lines 57-79 of the source). -/
def ffmpegCallback (os : Os) : Callback := fun error p =>
  if truthy error then
    let p := consoleError
      "FFmpeg is not installed. Please install it before proceeding:" p
    let p :=
      if os.platform = "darwin" then
        consoleError "For macOS: brew install ffmpeg" p
      else if os.platform = "linux" then
        consoleError "For Linux: sudo apt-get install ffmpeg" p
      else if os.platform = "win32" then
        consoleError
          "For Windows: choco install ffmpeg or download from https://ffmpeg.org/download.html"
          p
      else
        consoleError
          "Unsupported OS. Please refer to the FFmpeg documentation for installation instructions."
          p
    processExit 1 p
  else
    consoleLog "FFmpeg CLI is installed." p

/-- The function `checkZstd`. -/
def checkZstd (os : Os) (rt : Runtime) : Runtime :=
  exec "zstd --version" (zstdCallback os) rt

/-- The function `checkCwebp`. -/
def checkCwebp (os : Os) (rt : Runtime) : Runtime :=
  exec "cwebp -version" (cwebpCallback os) rt

/-- The function `checkFfmpeg`. -/
def checkFfmpeg (os : Os) (rt : Runtime) : Runtime :=
  exec "ffmpeg -version" (ffmpegCallback os) rt

/-- A process that has just started. -/
def Runtime.start : Runtime :=
  { proc := { events := [], exited := none }, pending := [] }

/-- The module top level (lines 82-84): the three calls, in this order. -/
def main (os : Os) : Runtime :=
  checkFfmpeg os (checkCwebp os (checkZstd os Runtime.start))

/-- Take the first pending callback stored under `command` out of the list. -/
def takePending (command : String) :
    List (String × Callback) → Option (Callback × List (String × Callback))
  | [] => none
  | (c, cb) :: rest =>
    if c = command then some (cb, rest)
    else
      match takePending command rest with
      | none => none
      | some (found, rest') => some (found, (c, cb) :: rest')

/-- One turn of the event loop: the child launched with `command` has
finished with `error`; its callback runs, once, unless the process has
exited already. -/
def complete (command : String) (error : Option ExecError) (rt : Runtime) : Runtime :=
  match rt.proc.exited with
  | some _ => rt
  | none =>
    match takePending command rt.pending with
    | none => rt
    | some (cb, rest) => { proc := cb error rt.proc, pending := rest }

/-- The event loop: the children finish in the order `order`, the child
launched with command `c` finishing with `outcome c`. -/
def eventLoop (outcome : String → Option ExecError) (order : List String)
    (rt : Runtime) : Runtime :=
  order.foldl (fun rt command => complete command (outcome command) rt) rt

/-- A whole run of the script. -/
def run (os : Os) (outcome : String → Option ExecError) (order : List String) : Runtime :=
  eventLoop outcome order (main os)

/-- The exit code of the process, if it has ended: the argument of
`process.exit`, or `0` when the event loop has nothing left to wait for. -/
def Runtime.exitCode (rt : Runtime) : Option Nat :=
  match rt.proc.exited with
  | some code => some code
  | none => if rt.pending.isEmpty then some 0 else none

/-- The lines written to standard output, oldest first. -/
def stdoutOf (p : Proc) : List String :=
  p.events.filterMap (fun e => match e with
    | Event.stdout line => some line
    | _ => none)

/-- The lines written to the error stream, oldest first. -/
def stderrOf (p : Proc) : List String :=
  p.events.filterMap (fun e => match e with
    | Event.stderr line => some line
    | _ => none)

/-- The commands of the children launched, oldest first. -/
def spawnedOf (p : Proc) : List String :=
  p.events.filterMap (fun e => match e with
    | Event.spawn command => some command
    | _ => none)

/-- The three probe commands, in launch order. -/
def probes : List String :=
  ["zstd --version", "cwebp -version", "ffmpeg -version"]

/-- The line the second `console.error` of `checkZstd` receives, as chosen
by the platform branch (lines 10-22 of the source). -/
def zstdHint (platform : String) : String :=
  if platform = "darwin" then "For macOS: brew install zstd"
  else if platform = "linux" then "For Linux: sudo apt-get install zstd"
  else if platform = "win32" then
    "For Windows: choco install zstandard or download from https://github.com/facebook/zstd/releases"
  else "Unsupported OS. Please refer to the Zstandard documentation for installation instructions."

/-- The line the second `console.error` of `checkCwebp` receives, as chosen
by the platform branch (lines 36-48 of the source). -/
def cwebpHint (platform : String) : String :=
  if platform = "darwin" then "For macOS: brew install webp"
  else if platform = "linux" then "For Linux: sudo apt-get install webp"
  else if platform = "win32" then
    "For Windows: choco install webp or download from https://developers.google.com/speed/webp/download"
  else "Unsupported OS. Please refer to the WebP documentation for installation instructions."

/-- The line the second `console.error` of `checkFfmpeg` receives, as chosen
by the platform branch (lines 62-74 of the source). -/
def ffmpegHint (platform : String) : String :=
  if platform = "darwin" then "For macOS: brew install ffmpeg"
  else if platform = "linux" then "For Linux: sudo apt-get install ffmpeg"
  else if platform = "win32" then
    "For Windows: choco install ffmpeg or download from https://ffmpeg.org/download.html"
  else "Unsupported OS. Please refer to the FFmpeg documentation for installation instructions."

/-- The line `console.log` receives in the callback registered for `command`
(lines 25, 51 and 77 of the source). -/
def installedLine (command : String) : String :=
  if command = "zstd --version" then "Zstd CLI is installed."
  else if command = "cwebp -version" then "cwebp CLI is installed."
  else "FFmpeg CLI is installed."

/-- Host on which the three tools are installed. -/
def allPresent : String → Option ExecError :=
  fun _ => none

/-- Host on which none of the three tools is found. -/
def allAbsent : String → Option ExecError :=
  fun _ => some (ExecError.spawnFailure "ENOENT")

/-- Host on which only `cwebp` is missing: the shell reports status 127. -/
def onlyCwebpAbsent : String → Option ExecError :=
  fun command => if command = "cwebp -version" then some (ExecError.nonZeroExit 127) else none

/-- Host on which `zstd` and `cwebp` are missing and `ffmpeg` is installed. -/
def zstdAndCwebpAbsent : String → Option ExecError :=
  fun command => if command = "ffmpeg -version" then none else some (ExecError.nonZeroExit 127)

/-- The two lines the callback stored under `command` writes to the error
stream when its probe failed: the header, then the platform's hint (lines
7-22, 33-48 and 59-74 of the source). -/
def missingBlock (os : Os) (command : String) : List String :=
  if command = "zstd --version" then
    ["Zstd CLI is not installed. Please install it before proceeding:", zstdHint os.platform]
  else if command = "cwebp -version" then
    ["cwebp (WebP encoder) is not installed. Please install it before proceeding:",
      cwebpHint os.platform]
  else
    ["FFmpeg is not installed. Please install it before proceeding:", ffmpegHint os.platform]

/-- The callbacks in `pending` are callbacks of the script, each stored under
its own command. -/
def Known (os : Os) (pending : List (String × Callback)) : Prop :=
  ∀ x ∈ pending, x = ("zstd --version", zstdCallback os) ∨
    x = ("cwebp -version", cwebpCallback os) ∨ x = ("ffmpeg -version", ffmpegCallback os)

/-- The shape of the history of a run: the three launches, then lines on
standard output only, then, once the process has exited, the two lines one
failing callback wrote to the error stream. -/
def Shape (os : Os) (outcome : String → Option ExecError) (p : Proc) : Prop :=
  ∃ outs errs : List String, p.events =
      [Event.spawn "zstd --version", Event.spawn "cwebp -version",
        Event.spawn "ffmpeg -version"] ++ outs.map Event.stdout ++ errs.map Event.stderr ∧
    ((p.exited = none ∧ errs = []) ∨
      (p.exited = some 1 ∧
        ((outcome "zstd --version" ≠ none ∧
            errs = ["Zstd CLI is not installed. Please install it before proceeding:",
              zstdHint os.platform]) ∨
          (outcome "cwebp -version" ≠ none ∧
            errs = ["cwebp (WebP encoder) is not installed. Please install it before proceeding:",
              cwebpHint os.platform]) ∨
          (outcome "ffmpeg -version" ≠ none ∧
            errs = ["FFmpeg is not installed. Please install it before proceeding:",
              ffmpegHint os.platform]))))


/-! ## Auxiliary facts -/

theorem perm_three {α : Type} (a b c : α) (l : List α) (h : l.Perm [a, b, c]) :
    l = [a, b, c] ∨ l = [a, c, b] ∨ l = [b, a, c] ∨ l = [b, c, a] ∨
      l = [c, a, b] ∨ l = [c, b, a] := by
  have hmem := (List.mem_permutations).2 h
  simp [List.permutations, List.permutationsAux_cons, List.permutationsAux_nil] at hmem
  tauto

theorem main_eq (os : Os) :
    main os =
      { proc := { events := [Event.spawn "zstd --version", Event.spawn "cwebp -version",
                    Event.spawn "ffmpeg -version"], exited := none }
        pending := [("zstd --version", zstdCallback os), ("cwebp -version", cwebpCallback os),
                    ("ffmpeg -version", ffmpegCallback os)] } := rfl

theorem zstdCallback_none (os : Os) (evs : List Event) :
    zstdCallback os none ⟨evs, none⟩ = ⟨evs ++ [Event.stdout "Zstd CLI is installed."], none⟩ := rfl

theorem cwebpCallback_none (os : Os) (evs : List Event) :
    cwebpCallback os none ⟨evs, none⟩ = ⟨evs ++ [Event.stdout "cwebp CLI is installed."], none⟩ := rfl

theorem ffmpegCallback_none (os : Os) (evs : List Event) :
    ffmpegCallback os none ⟨evs, none⟩ = ⟨evs ++ [Event.stdout "FFmpeg CLI is installed."], none⟩ := rfl

theorem zstdCallback_some (os : Os) (e : ExecError) (evs : List Event) :
    zstdCallback os (some e) ⟨evs, none⟩ =
      ⟨evs ++ [Event.stderr "Zstd CLI is not installed. Please install it before proceeding:",
               Event.stderr (zstdHint os.platform)], some 1⟩ := by
  simp only [zstdCallback, zstdHint, truthy, Option.isSome_some, if_true, consoleError]
  split_ifs <;> simp [consoleError, processExit]

theorem cwebpCallback_some (os : Os) (e : ExecError) (evs : List Event) :
    cwebpCallback os (some e) ⟨evs, none⟩ =
      ⟨evs ++ [Event.stderr
                 "cwebp (WebP encoder) is not installed. Please install it before proceeding:",
               Event.stderr (cwebpHint os.platform)], some 1⟩ := by
  simp only [cwebpCallback, cwebpHint, truthy, Option.isSome_some, if_true, consoleError]
  split_ifs <;> simp [consoleError, processExit]

theorem ffmpegCallback_some (os : Os) (e : ExecError) (evs : List Event) :
    ffmpegCallback os (some e) ⟨evs, none⟩ =
      ⟨evs ++ [Event.stderr "FFmpeg is not installed. Please install it before proceeding:",
               Event.stderr (ffmpegHint os.platform)], some 1⟩ := by
  simp only [ffmpegCallback, ffmpegHint, truthy, Option.isSome_some, if_true, consoleError]
  split_ifs <;> simp [consoleError, processExit]

theorem zstdHint_ne_empty (platform : String) : zstdHint platform ≠ "" := by
  unfold zstdHint
  split_ifs <;> decide

theorem cwebpHint_ne_empty (platform : String) : cwebpHint platform ≠ "" := by
  unfold cwebpHint
  split_ifs <;> decide

theorem ffmpegHint_ne_empty (platform : String) : ffmpegHint platform ≠ "" := by
  unfold ffmpegHint
  split_ifs <;> decide


theorem stdoutOf_shape (pre : List Event) (hpre : ∀ ev ∈ pre, ∀ l, ev ≠ Event.stdout l)
    (outs errs : List String) (x : Option Nat) :
    stdoutOf ⟨pre ++ outs.map Event.stdout ++ errs.map Event.stderr, x⟩ = outs := by
  have h1 : ∀ l : List Event, (∀ ev ∈ l, ∀ s, ev ≠ Event.stdout s) →
      l.filterMap (fun e => match e with
        | Event.stdout line => some line
        | _ => none) = [] := by
    intro l hl
    induction l with
    | nil => rfl
    | cons a t ih =>
      have ha := hl a (List.mem_cons_self _ _)
      have ht := ih (fun ev hev => hl ev (List.mem_cons_of_mem _ hev))
      cases a with
      | stdout s => exact absurd rfl (ha s)
      | spawn s => simpa [List.filterMap_cons] using ht
      | stderr s => simpa [List.filterMap_cons] using ht
  have h2 : ∀ l : List String, (l.map Event.stdout).filterMap (fun e => match e with
        | Event.stdout line => some line
        | _ => none) = l := by
    intro l
    induction l with
    | nil => rfl
    | cons a t ih => simp [List.filterMap_cons, ih]
  have h3 : ∀ ev ∈ errs.map Event.stderr, ∀ s, ev ≠ Event.stdout s := by
    intro ev hev s
    rcases List.mem_map.1 hev with ⟨y, _, rfl⟩
    simp
  simp only [stdoutOf, List.filterMap_append, h1 pre hpre, h2 outs, h1 _ h3]
  simp

theorem stderrOf_shape (pre : List Event) (hpre : ∀ ev ∈ pre, ∀ l, ev ≠ Event.stderr l)
    (outs errs : List String) (x : Option Nat) :
    stderrOf ⟨pre ++ outs.map Event.stdout ++ errs.map Event.stderr, x⟩ = errs := by
  have h1 : ∀ l : List Event, (∀ ev ∈ l, ∀ s, ev ≠ Event.stderr s) →
      l.filterMap (fun e => match e with
        | Event.stderr line => some line
        | _ => none) = [] := by
    intro l hl
    induction l with
    | nil => rfl
    | cons a t ih =>
      have ha := hl a (List.mem_cons_self _ _)
      have ht := ih (fun ev hev => hl ev (List.mem_cons_of_mem _ hev))
      cases a with
      | stderr s => exact absurd rfl (ha s)
      | spawn s => simpa [List.filterMap_cons] using ht
      | stdout s => simpa [List.filterMap_cons] using ht
  have h2 : ∀ l : List String, (l.map Event.stderr).filterMap (fun e => match e with
        | Event.stderr line => some line
        | _ => none) = l := by
    intro l
    induction l with
    | nil => rfl
    | cons a t ih => simp [List.filterMap_cons, ih]
  have h3 : ∀ ev ∈ outs.map Event.stdout, ∀ s, ev ≠ Event.stderr s := by
    intro ev hev s
    rcases List.mem_map.1 hev with ⟨y, _, rfl⟩
    simp
  simp only [stderrOf, List.filterMap_append, h1 pre hpre, h2 errs, h1 _ h3]
  simp

theorem spawnedOf_shape (outs errs : List String) (x : Option Nat) :
    spawnedOf ⟨[Event.spawn "zstd --version", Event.spawn "cwebp -version",
        Event.spawn "ffmpeg -version"] ++ outs.map Event.stdout ++ errs.map Event.stderr, x⟩ =
      probes := by
  have h1 : ∀ l : List Event, (∀ ev ∈ l, ∀ s, ev ≠ Event.spawn s) →
      l.filterMap (fun e => match e with
        | Event.spawn command => some command
        | _ => none) = [] := by
    intro l hl
    induction l with
    | nil => rfl
    | cons a t ih =>
      have ha := hl a (List.mem_cons_self _ _)
      have ht := ih (fun ev hev => hl ev (List.mem_cons_of_mem _ hev))
      cases a with
      | spawn s => exact absurd rfl (ha s)
      | stderr s => simpa [List.filterMap_cons] using ht
      | stdout s => simpa [List.filterMap_cons] using ht
  have h3 : ∀ ev ∈ outs.map Event.stdout, ∀ s, ev ≠ Event.spawn s := by
    intro ev hev s
    rcases List.mem_map.1 hev with ⟨y, _, rfl⟩
    simp
  have h4 : ∀ ev ∈ errs.map Event.stderr, ∀ s, ev ≠ Event.spawn s := by
    intro ev hev s
    rcases List.mem_map.1 hev with ⟨y, _, rfl⟩
    simp
  simp only [spawnedOf, List.filterMap_append, h1 _ h3, h1 _ h4]
  simp [probes]

theorem complete_exited (command : String) (error : Option ExecError) (rt : Runtime)
    (k : Nat) (h : rt.proc.exited = some k) : complete command error rt = rt := by
  simp [complete, h]

theorem eventLoop_exited (outcome : String → Option ExecError) (order : List String) :
    ∀ (rt : Runtime) (k : Nat), rt.proc.exited = some k → eventLoop outcome order rt = rt := by
  induction order with
  | nil => intro rt k _; rfl
  | cons c t ih =>
    intro rt k h
    have hc := complete_exited c (outcome c) rt k h
    show eventLoop outcome t (complete c (outcome c) rt) = rt
    rw [hc]
    exact ih rt k h

theorem eventLoop_append (outcome : String → Option ExecError) (a b : List String)
    (rt : Runtime) :
    eventLoop outcome (a ++ b) rt = eventLoop outcome b (eventLoop outcome a rt) := by
  simp [eventLoop, List.foldl_append]

theorem takePending_some (command : String) :
    ∀ (l : List (String × Callback)) (cb : Callback) (rest : List (String × Callback)),
      takePending command l = some (cb, rest) →
        (command, cb) ∈ l ∧ ∀ x ∈ rest, x ∈ l := by
  intro l
  induction l with
  | nil => intro cb rest h; simp [takePending] at h
  | cons a t ih =>
    intro cb rest h
    obtain ⟨c, f⟩ := a
    by_cases hc : c = command
    · simp [takePending, hc] at h
      obtain ⟨rfl, rfl⟩ := h
      subst hc
      exact ⟨List.mem_cons_self _ _, fun x hx => List.mem_cons_of_mem _ hx⟩
    · simp only [takePending, hc, if_false] at h
      cases hrec : takePending command t with
      | none => simp [hrec] at h
      | some r =>
        obtain ⟨found, rest'⟩ := r
        simp [hrec] at h
        obtain ⟨rfl, rfl⟩ := h
        have := ih found rest' hrec
        refine ⟨List.mem_cons_of_mem _ this.1, ?_⟩
        intro x hx
        rcases List.mem_cons.1 hx with rfl | hx
        · exact List.mem_cons_self _ _
        · exact List.mem_cons_of_mem _ (this.2 x hx)

theorem known_main (os : Os) : Known os (main os).pending := by
  intro x hx
  simpa [main_eq] using hx

theorem shape_main (os : Os) (outcome : String → Option ExecError) :
    Shape os outcome (main os).proc :=
  ⟨[], [], by simp [main_eq], Or.inl ⟨rfl, rfl⟩⟩

theorem complete_inv (os : Os) (outcome : String → Option ExecError) (command : String)
    (rt : Runtime) (hk : Known os rt.pending) (hs : Shape os outcome rt.proc) :
    Known os (complete command (outcome command) rt).pending ∧
      Shape os outcome (complete command (outcome command) rt).proc := by
  obtain ⟨⟨evs, ex⟩, pending⟩ := rt
  cases ex with
  | some k => exact ⟨by simpa [complete] using hk, by simpa [complete] using hs⟩
  | none =>
    cases htp : takePending command pending with
    | none => exact ⟨by simpa [complete, htp] using hk, by simpa [complete, htp] using hs⟩
    | some r =>
      obtain ⟨cb, rest⟩ := r
      obtain ⟨hmem, hrest⟩ := takePending_some command pending cb rest htp
      have hk' : Known os rest := fun x hx => hk x (hrest x hx)
      obtain ⟨outs, errs, hevs, hcase⟩ := hs
      have herrs : errs = [] := by
        rcases hcase with ⟨_, h⟩ | ⟨h, _⟩
        · exact h
        · simp at h
      subst herrs
      simp only [List.map_nil, List.append_nil] at hevs
      subst hevs
      refine ⟨by simpa [complete, htp] using hk', ?_⟩
      simp only [complete, htp]
      rcases hk _ hmem with h | h | h <;> simp only [Prod.mk.injEq] at h <;>
        obtain ⟨rfl, rfl⟩ := h
      · cases ho : outcome "zstd --version" with
        | none =>
          rw [zstdCallback_none]
          exact ⟨outs ++ ["Zstd CLI is installed."], [], by simp, Or.inl ⟨rfl, rfl⟩⟩
        | some e =>
          rw [zstdCallback_some]
          exact ⟨outs, _, by simp, Or.inr ⟨rfl, Or.inl ⟨by simp [ho], rfl⟩⟩⟩
      · cases ho : outcome "cwebp -version" with
        | none =>
          rw [cwebpCallback_none]
          exact ⟨outs ++ ["cwebp CLI is installed."], [], by simp, Or.inl ⟨rfl, rfl⟩⟩
        | some e =>
          rw [cwebpCallback_some]
          exact ⟨outs, _, by simp, Or.inr ⟨rfl, Or.inr (Or.inl ⟨by simp [ho], rfl⟩)⟩⟩
      · cases ho : outcome "ffmpeg -version" with
        | none =>
          rw [ffmpegCallback_none]
          exact ⟨outs ++ ["FFmpeg CLI is installed."], [], by simp, Or.inl ⟨rfl, rfl⟩⟩
        | some e =>
          rw [ffmpegCallback_some]
          exact ⟨outs, _, by simp, Or.inr ⟨rfl, Or.inr (Or.inr ⟨by simp [ho], rfl⟩)⟩⟩

theorem eventLoop_inv (os : Os) (outcome : String → Option ExecError) (order : List String) :
    ∀ rt : Runtime, Known os rt.pending → Shape os outcome rt.proc →
      Known os (eventLoop outcome order rt).pending ∧
        Shape os outcome (eventLoop outcome order rt).proc := by
  induction order with
  | nil => intro rt hk hs; exact ⟨hk, hs⟩
  | cons c t ih =>
    intro rt hk hs
    obtain ⟨hk', hs'⟩ := complete_inv os outcome c rt hk hs
    exact ih _ hk' hs'

theorem run_inv (os : Os) (outcome : String → Option ExecError) (order : List String) :
    Known os (run os outcome order).pending ∧ Shape os outcome (run os outcome order).proc :=
  eventLoop_inv os outcome order (main os) (known_main os) (shape_main os outcome)

theorem callback_error_irrelevant (os : Os) (e₁ e₂ : ExecError) (p : Proc) :
    zstdCallback os (some e₁) p = zstdCallback os (some e₂) p ∧
      cwebpCallback os (some e₁) p = cwebpCallback os (some e₂) p ∧
      ffmpegCallback os (some e₁) p = ffmpegCallback os (some e₂) p :=
  ⟨rfl, rfl, rfl⟩

theorem complete_known (os : Os) (command : String) (error : Option ExecError)
    (rt : Runtime) (hk : Known os rt.pending) :
    Known os (complete command error rt).pending := by
  obtain ⟨⟨evs, ex⟩, pending⟩ := rt
  cases ex with
  | some k => exact hk
  | none =>
    cases htp : takePending command pending with
    | none =>
      simp only [complete, htp]
      exact hk
    | some r =>
      obtain ⟨cb, rest⟩ := r
      have hrest := (takePending_some command pending cb rest htp).2
      simp only [complete, htp]
      exact fun x hx => hk x (hrest x hx)

theorem complete_congr (os : Os) (command : String) (e₁ e₂ : Option ExecError)
    (rt : Runtime) (hk : Known os rt.pending) (he : e₁.isSome = e₂.isSome) :
    complete command e₁ rt = complete command e₂ rt := by
  obtain ⟨⟨evs, ex⟩, pending⟩ := rt
  cases ex with
  | some k => simp [complete]
  | none =>
    cases htp : takePending command pending with
    | none => simp [complete, htp]
    | some r =>
      obtain ⟨cb, rest⟩ := r
      obtain ⟨hmem, _⟩ := takePending_some command pending cb rest htp
      simp only [complete, htp]
      cases e₁ with
      | none =>
        cases e₂ with
        | none => rfl
        | some b => simp at he
      | some a =>
        cases e₂ with
        | none => simp at he
        | some b =>
          rcases hk _ hmem with h | h | h <;> simp only [Prod.mk.injEq] at h <;>
            obtain ⟨rfl, rfl⟩ := h <;> rfl

theorem eventLoop_congr (os : Os) (o₁ o₂ : String → Option ExecError)
    (h : ∀ c, (o₁ c).isSome = (o₂ c).isSome) (order : List String) :
    ∀ rt : Runtime, Known os rt.pending →
      eventLoop o₁ order rt = eventLoop o₂ order rt := by
  induction order with
  | nil => intro rt _; rfl
  | cons c t ih =>
    intro rt hk
    show eventLoop o₁ t (complete c (o₁ c) rt) = eventLoop o₂ t (complete c (o₂ c) rt)
    rw [complete_congr os c (o₁ c) (o₂ c) rt hk (h c)]
    exact ih _ (complete_known os c (o₂ c) rt hk)

theorem takePending_of_mem (command : String) :
    ∀ (l : List (String × Callback)) (cb : Callback), (command, cb) ∈ l →
      ∃ found rest, takePending command l = some (found, rest) := by
  intro l
  induction l with
  | nil => intro cb h; simp at h
  | cons a t ih =>
    intro cb h
    obtain ⟨c, f⟩ := a
    by_cases hc : c = command
    · exact ⟨f, t, by simp [takePending, hc]⟩
    · have ht : (command, cb) ∈ t := by
        rcases List.mem_cons.1 h with heq | ht
        · exact absurd (congrArg Prod.fst heq).symm hc
        · exact ht
      obtain ⟨found, rest, hrec⟩ := ih cb ht
      exact ⟨found, (c, f) :: rest, by simp [takePending, hc, hrec]⟩

theorem takePending_keep (command : String) :
    ∀ (l : List (String × Callback)) (cb : Callback) (rest : List (String × Callback)),
      takePending command l = some (cb, rest) →
        ∀ x ∈ l, x.1 ≠ command → x ∈ rest := by
  intro l
  induction l with
  | nil => intro cb rest h; simp [takePending] at h
  | cons a t ih =>
    intro cb rest h x hx hne
    obtain ⟨c, f⟩ := a
    by_cases hc : c = command
    · simp [takePending, hc] at h
      obtain ⟨rfl, rfl⟩ := h
      rcases List.mem_cons.1 hx with rfl | hx
      · exact absurd hc hne
      · exact hx
    · simp only [takePending, hc, if_false] at h
      cases hrec : takePending command t with
      | none => simp [hrec] at h
      | some r =>
        obtain ⟨found, rest'⟩ := r
        simp [hrec] at h
        obtain ⟨rfl, rfl⟩ := h
        rcases List.mem_cons.1 hx with rfl | hx
        · exact List.mem_cons_self _ _
        · exact List.mem_cons_of_mem _ (ih found rest' hrec x hx hne)

theorem complete_keep (command : String) (error : Option ExecError) (rt : Runtime)
    (x : String × Callback) (hx : x ∈ rt.pending) (hne : x.1 ≠ command) :
    x ∈ (complete command error rt).pending := by
  obtain ⟨⟨evs, ex⟩, pending⟩ := rt
  cases ex with
  | some k => exact hx
  | none =>
    cases htp : takePending command pending with
    | none =>
      simp only [complete, htp]
      exact hx
    | some r =>
      obtain ⟨cb, rest⟩ := r
      simp only [complete, htp]
      exact takePending_keep command pending cb rest htp x hx hne

theorem eventLoop_keep (outcome : String → Option ExecError) (x : String × Callback)
    (order : List String) :
    ∀ rt : Runtime, x ∈ rt.pending → x.1 ∉ order →
      x ∈ (eventLoop outcome order rt).pending := by
  induction order with
  | nil => intro rt hx _; exact hx
  | cons c t ih =>
    intro rt hx hnot
    have hne : x.1 ≠ c := fun h => hnot (h ▸ List.mem_cons_self _ _)
    have hnt : x.1 ∉ t := fun h => hnot (List.mem_cons_of_mem _ h)
    exact ih _ (complete_keep c (outcome c) rt x hx hne) hnt

theorem complete_fail_exits (os : Os) (outcome : String → Option ExecError)
    (command : String) (rt : Runtime) (hk : Known os rt.pending)
    (hs : Shape os outcome rt.proc) (hp : ∃ cb, (command, cb) ∈ rt.pending)
    (hfail : outcome command ≠ none) :
    (complete command (outcome command) rt).proc.exited = some 1 := by
  obtain ⟨⟨evs, ex⟩, pending⟩ := rt
  cases ex with
  | some k =>
    obtain ⟨outs, errs, _, hcase⟩ := hs
    rcases hcase with ⟨h, _⟩ | ⟨h, _⟩
    · simp at h
    · simpa [complete] using h
  | none =>
    obtain ⟨cb, hcb⟩ := hp
    obtain ⟨found, rest, htp⟩ := takePending_of_mem command pending cb hcb
    obtain ⟨hmem, _⟩ := takePending_some command pending found rest htp
    obtain ⟨e, he⟩ := Option.ne_none_iff_exists'.1 hfail
    simp only [complete, htp, he]
    rcases hk _ hmem with h | h | h <;> simp only [Prod.mk.injEq] at h <;>
      obtain ⟨rfl, rfl⟩ := h
    · rw [zstdCallback_some]
    · rw [cwebpCallback_some]
    · rw [ffmpegCallback_some]

theorem run_fail_exits (os : Os) (outcome : String → Option ExecError)
    (before : List String) (command : String) (hc : command ∈ probes)
    (hnot : command ∉ before) (hfail : outcome command ≠ none) :
    (run os outcome (before ++ [command])).proc.exited = some 1 := by
  have hinv := run_inv os outcome before
  have hp : ∃ cb, (command, cb) ∈ (run os outcome before).pending := by
    have hmain : ∃ cb, (command, cb) ∈ (main os).pending := by
      simp only [probes, List.mem_cons, List.mem_singleton, List.not_mem_nil, or_false] at hc
      rcases hc with rfl | rfl | rfl
      · exact ⟨zstdCallback os, by simp [main_eq]⟩
      · exact ⟨cwebpCallback os, by simp [main_eq]⟩
      · exact ⟨ffmpegCallback os, by simp [main_eq]⟩
    obtain ⟨cb, hcb⟩ := hmain
    exact ⟨cb, eventLoop_keep outcome (command, cb) before (main os) hcb hnot⟩
  have := complete_fail_exits os outcome command (run os outcome before) hinv.1 hinv.2 hp hfail
  simpa [run, eventLoop_append, eventLoop] using this

theorem run_frozen (os : Os) (outcome : String → Option ExecError)
    (before after : List String) (h : (run os outcome before).proc.exited ≠ none) :
    run os outcome (before ++ after) = run os outcome before := by
  obtain ⟨k, hk⟩ := Option.ne_none_iff_exists'.1 h
  simp only [run, eventLoop_append]
  exact eventLoop_exited outcome after _ k hk


theorem exitCode_run (os : Os) (outcome : String → Option ExecError) (order : List String)
    (h : order.Perm probes) :
    (run os outcome order).exitCode =
      some (if outcome "zstd --version" = none ∧ outcome "cwebp -version" = none ∧
              outcome "ffmpeg -version" = none then 0 else 1) := by
  rcases perm_three _ _ _ _ h with rfl | rfl | rfl | rfl | rfl | rfl <;>
  rcases hz : outcome "zstd --version" with _ | ez <;>
  rcases hc : outcome "cwebp -version" with _ | ec <;>
  rcases hf : outcome "ffmpeg -version" with _ | ef <;>
  simp [run, eventLoop, main_eq, complete, takePending, hz, hc, hf, zstdCallback_none,
    cwebpCallback_none, ffmpegCallback_none, zstdCallback_some, cwebpCallback_some,
    ffmpegCallback_some, Runtime.exitCode]

theorem stdout_all_present (os : Os) (outcome : String → Option ExecError)
    (order : List String) (h : order.Perm probes)
    (hz : outcome "zstd --version" = none) (hc : outcome "cwebp -version" = none)
    (hf : outcome "ffmpeg -version" = none) :
    stdoutOf (run os outcome order).proc = order.map installedLine := by
  rcases perm_three _ _ _ _ h with rfl | rfl | rfl | rfl | rfl | rfl <;>
  simp [run, eventLoop, main_eq, complete, takePending, hz, hc, hf, zstdCallback_none,
    cwebpCallback_none, ffmpegCallback_none, stdoutOf, installedLine]

theorem stderr_all_present (os : Os) (outcome : String → Option ExecError)
    (order : List String) (h : order.Perm probes)
    (hz : outcome "zstd --version" = none) (hc : outcome "cwebp -version" = none)
    (hf : outcome "ffmpeg -version" = none) :
    stderrOf (run os outcome order).proc = [] := by
  rcases perm_three _ _ _ _ h with rfl | rfl | rfl | rfl | rfl | rfl <;>
  simp [run, eventLoop, main_eq, complete, takePending, hz, hc, hf, zstdCallback_none,
    cwebpCallback_none, ffmpegCallback_none, stderrOf]

theorem stdout_run (os : Os) (outcome : String → Option ExecError) (order : List String)
    (h : order.Perm probes) :
    stdoutOf (run os outcome order).proc =
      (order.takeWhile (fun c => (outcome c).isNone)).map installedLine := by
  rcases perm_three _ _ _ _ h with rfl | rfl | rfl | rfl | rfl | rfl <;>
  rcases hz : outcome "zstd --version" with _ | ez <;>
  rcases hc : outcome "cwebp -version" with _ | ec <;>
  rcases hf : outcome "ffmpeg -version" with _ | ef <;>
  simp [run, eventLoop, main_eq, complete, takePending, hz, hc, hf, zstdCallback_none,
    cwebpCallback_none, ffmpegCallback_none, zstdCallback_some, cwebpCallback_some,
    ffmpegCallback_some, stdoutOf, installedLine, List.takeWhile]

theorem stderr_run (os : Os) (outcome : String → Option ExecError) (order : List String)
    (h : order.Perm probes) :
    stderrOf (run os outcome order).proc =
      ((order.find? (fun c => (outcome c).isSome)).map (missingBlock os)).getD [] := by
  rcases perm_three _ _ _ _ h with rfl | rfl | rfl | rfl | rfl | rfl <;>
  rcases hz : outcome "zstd --version" with _ | ez <;>
  rcases hc : outcome "cwebp -version" with _ | ec <;>
  rcases hf : outcome "ffmpeg -version" with _ | ef <;>
  simp [run, eventLoop, main_eq, complete, takePending, hz, hc, hf, zstdCallback_none,
    cwebpCallback_none, ffmpegCallback_none, zstdCallback_some, cwebpCallback_some,
    ffmpegCallback_some, stderrOf, missingBlock, List.find?]

theorem run_cut (os : Os) (outcome : String → Option ExecError) (order : List String)
    (h : order.Perm probes) :
    run os outcome order =
      run os outcome (order.takeWhile (fun c => (outcome c).isNone) ++
        (order.find? (fun c => (outcome c).isSome)).toList) := by
  rcases perm_three _ _ _ _ h with rfl | rfl | rfl | rfl | rfl | rfl <;>
  rcases hz : outcome "zstd --version" with _ | ez <;>
  rcases hc : outcome "cwebp -version" with _ | ec <;>
  rcases hf : outcome "ffmpeg -version" with _ | ef <;>
  simp [run, eventLoop, main_eq, complete, takePending, hz, hc, hf, zstdCallback_none,
    cwebpCallback_none, ffmpegCallback_none, zstdCallback_some, cwebpCallback_some,
    ffmpegCallback_some, List.takeWhile, List.find?]

theorem installedLine_inj_on (x y : String) (hx : x ∈ probes) (hy : y ∈ probes)
    (h : installedLine x = installedLine y) : x = y := by
  simp only [probes, List.mem_cons, List.mem_singleton, List.not_mem_nil, or_false] at hx hy
  rcases hx with rfl | rfl | rfl <;> rcases hy with rfl | rfl | rfl <;>
    first
      | rfl
      | exact absurd h (by decide)

theorem missingBlock_inj_on (os : Os) (x y : String) (hx : x ∈ probes) (hy : y ∈ probes)
    (h : missingBlock os x = missingBlock os y) : x = y := by
  simp only [probes, List.mem_cons, List.mem_singleton, List.not_mem_nil, or_false] at hx hy
  rcases hx with rfl | rfl | rfl <;> rcases hy with rfl | rfl | rfl <;>
    first
      | rfl
      | (simp [missingBlock] at h)

theorem missingBlock_ne_nil (os : Os) (x : String) : missingBlock os x ≠ [] := by
  unfold missingBlock
  split_ifs <;> simp

theorem map_installedLine_inj :
    ∀ l₁ l₂ : List String, (∀ x ∈ l₁, x ∈ probes) → (∀ x ∈ l₂, x ∈ probes) →
      l₁.map installedLine = l₂.map installedLine → l₁ = l₂ := by
  intro l₁
  induction l₁ with
  | nil =>
    intro l₂ _ _ h
    cases l₂ with
    | nil => rfl
    | cons b t => simp at h
  | cons a t ih =>
    intro l₂ h₁ h₂ h
    cases l₂ with
    | nil => simp at h
    | cons b u =>
      simp only [List.map_cons, List.cons.injEq] at h
      have hab := installedLine_inj_on a b (h₁ a (List.mem_cons_self _ _))
        (h₂ b (List.mem_cons_self _ _)) h.1
      have htu := ih u (fun x hx => h₁ x (List.mem_cons_of_mem _ hx))
        (fun x hx => h₂ x (List.mem_cons_of_mem _ hx)) h.2
      rw [hab, htu]

theorem mem_map_installedLine (l : List String) (hl : ∀ x ∈ l, x ∈ probes) (c : String)
    (hc : c ∈ probes) : installedLine c ∈ l.map installedLine ↔ c ∈ l := by
  constructor
  · intro h
    obtain ⟨x, hx, hxc⟩ := List.mem_map.1 h
    rw [← installedLine_inj_on x c (hl x hx) hc hxc]
    exact hx
  · intro h
    exact List.mem_map.2 ⟨c, h, rfl⟩

theorem takeWhile_mem_probes (order : List String) (h : order.Perm probes)
    (p : String → Bool) : ∀ x ∈ order.takeWhile p, x ∈ probes :=
  fun _ hx => h.mem_iff.1 (List.takeWhile_subset p hx)

theorem stderr_eq_iff_first_failure (os : Os) (outcome : String → Option ExecError)
    (order₁ order₂ : List String) (h₁ : order₁.Perm probes) (h₂ : order₂.Perm probes) :
    stderrOf (run os outcome order₁).proc = stderrOf (run os outcome order₂).proc ↔
      order₁.find? (fun c => (outcome c).isSome) =
        order₂.find? (fun c => (outcome c).isSome) := by
  rw [stderr_run os outcome order₁ h₁, stderr_run os outcome order₂ h₂]
  constructor
  · intro h
    cases hf₁ : order₁.find? (fun c => (outcome c).isSome) with
    | none =>
      cases hf₂ : order₂.find? (fun c => (outcome c).isSome) with
      | none => rfl
      | some y =>
        rw [hf₁, hf₂] at h
        exact absurd h.symm (by simpa using missingBlock_ne_nil os y)
    | some x =>
      cases hf₂ : order₂.find? (fun c => (outcome c).isSome) with
      | none =>
        rw [hf₁, hf₂] at h
        exact absurd h (by simpa using missingBlock_ne_nil os x)
      | some y =>
        rw [hf₁, hf₂] at h
        have hx : x ∈ probes := h₁.mem_iff.1 (List.mem_of_find?_eq_some hf₁)
        have hy : y ∈ probes := h₂.mem_iff.1 (List.mem_of_find?_eq_some hf₂)
        rw [missingBlock_inj_on os x y hx hy (by simpa using h)]
  · intro h
    rw [h]

theorem first_failure_of_two_present (outcome : String → Option ExecError)
    (order : List String) (h : order.Perm probes)
    (hone : (outcome "zstd --version" = none ∧ outcome "cwebp -version" = none) ∨
      (outcome "zstd --version" = none ∧ outcome "ffmpeg -version" = none) ∨
      (outcome "cwebp -version" = none ∧ outcome "ffmpeg -version" = none)) :
    order.find? (fun c => (outcome c).isSome) =
      probes.find? (fun c => (outcome c).isSome) := by
  rcases perm_three _ _ _ _ h with rfl | rfl | rfl | rfl | rfl | rfl <;>
  rcases hz : outcome "zstd --version" with _ | ez <;>
  rcases hc : outcome "cwebp -version" with _ | ec <;>
  rcases hf : outcome "ffmpeg -version" with _ | ef <;>
  simp [hz, hc, hf, probes, List.find?] at hone ⊢

/-! ## The claims -/

/-- C1: whatever the outcomes of the three probe commands, the platform and
the order in which the three callbacks complete, the run ends with exit code
`0` exactly when all three probes succeeded, and with exit code `1` when at
least one of them failed. -/
theorem exit_code_zero_iff_all_probes_succeed (os : Os)
    (outcome : String → Option ExecError) (order : List String) (h : order.Perm probes) :
    ((run os outcome order).exitCode = some 0 ↔
        (outcome "zstd --version" = none ∧ outcome "cwebp -version" = none ∧
          outcome "ffmpeg -version" = none)) ∧
      (¬ (outcome "zstd --version" = none ∧ outcome "cwebp -version" = none ∧
          outcome "ffmpeg -version" = none) →
        (run os outcome order).exitCode = some 1) := by
  rw [exitCode_run os outcome order h]
  by_cases hall : outcome "zstd --version" = none ∧ outcome "cwebp -version" = none ∧
      outcome "ffmpeg -version" = none
  · simp [hall]
  · simp [hall]

/-- C1 at a concrete run: `cwebp` is missing on Linux and its callback
completes last; the exit code is `1`. -/
theorem exit_code_zero_iff_all_probes_succeed_witness :
    List.Perm ["ffmpeg -version", "zstd --version", "cwebp -version"] probes ∧
      (run ⟨"linux"⟩ onlyCwebpAbsent
        ["ffmpeg -version", "zstd --version", "cwebp -version"]).exitCode = some 1 :=
  ⟨by decide,
    (exit_code_zero_iff_all_probes_succeed ⟨"linux"⟩ onlyCwebpAbsent
      ["ffmpeg -version", "zstd --version", "cwebp -version"] (by decide)).2 (by decide)⟩

/-- C3: when all three probes succeed, then on every platform and for every
completion order standard output is exactly the three confirmation lines, one
per tool, in completion order; the error stream is empty and the exit code is
`0`. -/
theorem all_present_output (os : Os) (outcome : String → Option ExecError)
    (order : List String) (h : order.Perm probes)
    (hz : outcome "zstd --version" = none) (hc : outcome "cwebp -version" = none)
    (hf : outcome "ffmpeg -version" = none) :
    stdoutOf (run os outcome order).proc = order.map installedLine ∧
      (stdoutOf (run os outcome order).proc).Perm
        ["Zstd CLI is installed.", "cwebp CLI is installed.", "FFmpeg CLI is installed."] ∧
      stderrOf (run os outcome order).proc = [] ∧
      (run os outcome order).exitCode = some 0 := by
  have hout := stdout_all_present os outcome order h hz hc hf
  refine ⟨hout, ?_, stderr_all_present os outcome order h hz hc hf, ?_⟩
  · rw [hout]
    exact (h.map installedLine).trans (by decide)
  · rw [exitCode_run os outcome order h]
    simp [hz, hc, hf]

/-- C3 at a concrete run: all tools present on macOS, `ffmpeg` answering
first. -/
theorem all_present_output_witness :
    stdoutOf (run ⟨"darwin"⟩ allPresent
        ["ffmpeg -version", "zstd --version", "cwebp -version"]).proc =
        ["FFmpeg CLI is installed.", "Zstd CLI is installed.", "cwebp CLI is installed."] ∧
      stderrOf (run ⟨"darwin"⟩ allPresent
        ["ffmpeg -version", "zstd --version", "cwebp -version"]).proc = [] ∧
      (run ⟨"darwin"⟩ allPresent
        ["ffmpeg -version", "zstd --version", "cwebp -version"]).exitCode = some 0 :=
  have h := all_present_output ⟨"darwin"⟩ allPresent
    ["ffmpeg -version", "zstd --version", "cwebp -version"] (by decide) rfl rfl rfl
  ⟨h.1, h.2.2.1, h.2.2.2⟩

/-- C5: for each of the three tools the remediation line printed by a failing
probe is chosen by the platform identifier: `darwin` gives the `brew install`
line, `linux` the `sudo apt-get install` line, `win32` the `choco install`
line with the download address, and every other platform string gives the
tool's generic line; in each case the line follows the tool's header. -/
theorem hint_selected_by_platform (e : ExecError) (evs : List Event) :
    ((zstdCallback ⟨"darwin"⟩ (some e) ⟨evs, none⟩).events = evs ++
        [Event.stderr "Zstd CLI is not installed. Please install it before proceeding:",
          Event.stderr "For macOS: brew install zstd"] ∧
      (cwebpCallback ⟨"darwin"⟩ (some e) ⟨evs, none⟩).events = evs ++
        [Event.stderr
            "cwebp (WebP encoder) is not installed. Please install it before proceeding:",
          Event.stderr "For macOS: brew install webp"] ∧
      (ffmpegCallback ⟨"darwin"⟩ (some e) ⟨evs, none⟩).events = evs ++
        [Event.stderr "FFmpeg is not installed. Please install it before proceeding:",
          Event.stderr "For macOS: brew install ffmpeg"]) ∧
    ((zstdCallback ⟨"linux"⟩ (some e) ⟨evs, none⟩).events = evs ++
        [Event.stderr "Zstd CLI is not installed. Please install it before proceeding:",
          Event.stderr "For Linux: sudo apt-get install zstd"] ∧
      (cwebpCallback ⟨"linux"⟩ (some e) ⟨evs, none⟩).events = evs ++
        [Event.stderr
            "cwebp (WebP encoder) is not installed. Please install it before proceeding:",
          Event.stderr "For Linux: sudo apt-get install webp"] ∧
      (ffmpegCallback ⟨"linux"⟩ (some e) ⟨evs, none⟩).events = evs ++
        [Event.stderr "FFmpeg is not installed. Please install it before proceeding:",
          Event.stderr "For Linux: sudo apt-get install ffmpeg"]) ∧
    ((zstdCallback ⟨"win32"⟩ (some e) ⟨evs, none⟩).events = evs ++
        [Event.stderr "Zstd CLI is not installed. Please install it before proceeding:",
          Event.stderr
            "For Windows: choco install zstandard or download from https://github.com/facebook/zstd/releases"] ∧
      (cwebpCallback ⟨"win32"⟩ (some e) ⟨evs, none⟩).events = evs ++
        [Event.stderr
            "cwebp (WebP encoder) is not installed. Please install it before proceeding:",
          Event.stderr
            "For Windows: choco install webp or download from https://developers.google.com/speed/webp/download"] ∧
      (ffmpegCallback ⟨"win32"⟩ (some e) ⟨evs, none⟩).events = evs ++
        [Event.stderr "FFmpeg is not installed. Please install it before proceeding:",
          Event.stderr
            "For Windows: choco install ffmpeg or download from https://ffmpeg.org/download.html"]) ∧
    (∀ os : Os, os.platform ≠ "darwin" → os.platform ≠ "linux" → os.platform ≠ "win32" →
      (zstdCallback os (some e) ⟨evs, none⟩).events = evs ++
        [Event.stderr "Zstd CLI is not installed. Please install it before proceeding:",
          Event.stderr
            "Unsupported OS. Please refer to the Zstandard documentation for installation instructions."] ∧
      (cwebpCallback os (some e) ⟨evs, none⟩).events = evs ++
        [Event.stderr
            "cwebp (WebP encoder) is not installed. Please install it before proceeding:",
          Event.stderr
            "Unsupported OS. Please refer to the WebP documentation for installation instructions."] ∧
      (ffmpegCallback os (some e) ⟨evs, none⟩).events = evs ++
        [Event.stderr "FFmpeg is not installed. Please install it before proceeding:",
          Event.stderr
            "Unsupported OS. Please refer to the FFmpeg documentation for installation instructions."]) := by
  refine ⟨⟨?_, ?_, ?_⟩, ⟨?_, ?_, ?_⟩, ⟨?_, ?_, ?_⟩, ?_⟩
  · rw [zstdCallback_some]; rfl
  · rw [cwebpCallback_some]; rfl
  · rw [ffmpegCallback_some]; rfl
  · rw [zstdCallback_some]; rfl
  · rw [cwebpCallback_some]; rfl
  · rw [ffmpegCallback_some]; rfl
  · rw [zstdCallback_some]; rfl
  · rw [cwebpCallback_some]; rfl
  · rw [ffmpegCallback_some]; rfl
  · intro os h1 h2 h3
    rw [zstdCallback_some, cwebpCallback_some, ffmpegCallback_some]
    simp [zstdHint, cwebpHint, ffmpegHint, h1, h2, h3]

/-- C5 on a platform the script does not know: on `freebsd` a missing `zstd`
gets the generic line. -/
theorem hint_selected_by_platform_witness :
    (zstdCallback ⟨"freebsd"⟩ (some (ExecError.nonZeroExit 127)) ⟨[], none⟩).events =
      [Event.stderr "Zstd CLI is not installed. Please install it before proceeding:",
        Event.stderr
          "Unsupported OS. Please refer to the Zstandard documentation for installation instructions."] :=
  ((hint_selected_by_platform (ExecError.nonZeroExit 127) []).2.2.2 ⟨"freebsd"⟩
    (by decide) (by decide) (by decide)).1

/-- C6: for every tool and every platform identifier, known or not, the
callback of a failing probe writes exactly two lines to the error stream, the
tool's header and then one remediation line that is not empty, and writes
nothing to standard output. -/
theorem failing_callback_writes_header_and_hint (os : Os) (e : ExecError)
    (evs : List Event) :
    (∃ hint : String, hint ≠ "" ∧
      (zstdCallback os (some e) ⟨evs, none⟩).events = evs ++
        [Event.stderr "Zstd CLI is not installed. Please install it before proceeding:",
          Event.stderr hint]) ∧
    (∃ hint : String, hint ≠ "" ∧
      (cwebpCallback os (some e) ⟨evs, none⟩).events = evs ++
        [Event.stderr
            "cwebp (WebP encoder) is not installed. Please install it before proceeding:",
          Event.stderr hint]) ∧
    (∃ hint : String, hint ≠ "" ∧
      (ffmpegCallback os (some e) ⟨evs, none⟩).events = evs ++
        [Event.stderr "FFmpeg is not installed. Please install it before proceeding:",
          Event.stderr hint]) ∧
    stdoutOf (zstdCallback os (some e) ⟨evs, none⟩) = stdoutOf ⟨evs, none⟩ ∧
    stdoutOf (cwebpCallback os (some e) ⟨evs, none⟩) = stdoutOf ⟨evs, none⟩ ∧
    stdoutOf (ffmpegCallback os (some e) ⟨evs, none⟩) = stdoutOf ⟨evs, none⟩ := by
  refine ⟨⟨zstdHint os.platform, zstdHint_ne_empty _, ?_⟩,
    ⟨cwebpHint os.platform, cwebpHint_ne_empty _, ?_⟩,
    ⟨ffmpegHint os.platform, ffmpegHint_ne_empty _, ?_⟩, ?_, ?_, ?_⟩
  · rw [zstdCallback_some]
  · rw [cwebpCallback_some]
  · rw [ffmpegCallback_some]
  · rw [zstdCallback_some]; simp [stdoutOf, List.filterMap_append]
  · rw [cwebpCallback_some]; simp [stdoutOf, List.filterMap_append]
  · rw [ffmpegCallback_some]; simp [stdoutOf, List.filterMap_append]

/-- C7: a probe's error matters only through being null or not.  Any two
error objects given to a callback lead to the same process, which has exited
with code `1`; and two runs whose probes fail for different reasons, but fail
for the same commands, are the same run, with the same output on both streams
and the same exit code. -/
theorem error_shape_is_not_observed (os : Os) :
    (∀ (e₁ e₂ : ExecError) (p : Proc),
      zstdCallback os (some e₁) p = zstdCallback os (some e₂) p ∧
        cwebpCallback os (some e₁) p = cwebpCallback os (some e₂) p ∧
        ffmpegCallback os (some e₁) p = ffmpegCallback os (some e₂) p) ∧
    (∀ (e : ExecError) (evs : List Event),
      (zstdCallback os (some e) ⟨evs, none⟩).exited = some 1 ∧
        (cwebpCallback os (some e) ⟨evs, none⟩).exited = some 1 ∧
        (ffmpegCallback os (some e) ⟨evs, none⟩).exited = some 1) ∧
    (∀ (o₁ o₂ : String → Option ExecError) (order : List String),
      (∀ c, (o₁ c).isSome = (o₂ c).isSome) →
        run os o₁ order = run os o₂ order ∧
          stdoutOf (run os o₁ order).proc = stdoutOf (run os o₂ order).proc ∧
          stderrOf (run os o₁ order).proc = stderrOf (run os o₂ order).proc ∧
          (run os o₁ order).exitCode = (run os o₂ order).exitCode) := by
  refine ⟨fun e₁ e₂ p => callback_error_irrelevant os e₁ e₂ p, ?_, ?_⟩
  · intro e evs
    rw [zstdCallback_some, cwebpCallback_some, ffmpegCallback_some]
    exact ⟨rfl, rfl, rfl⟩
  · intro o₁ o₂ order h
    have heq : run os o₁ order = run os o₂ order :=
      eventLoop_congr os o₁ o₂ h order (main os) (known_main os)
    rw [heq]
    exact ⟨rfl, rfl, rfl, rfl⟩

/-- C7 at a concrete pair of runs: every tool missing because the command is
not found, against every tool ending with status 127. -/
theorem error_shape_is_not_observed_witness :
    run ⟨"win32"⟩ allAbsent probes =
      run ⟨"win32"⟩ (fun _ => some (ExecError.nonZeroExit 127)) probes :=
  ((error_shape_is_not_observed ⟨"win32"⟩).2.2 allAbsent
    (fun _ => some (ExecError.nonZeroExit 127)) probes (fun _ => rfl)).1

/-- C2 as stated fails: on a Linux host where none of the three tools is found
and the callbacks complete in launch order, the error stream holds the `zstd`
block and nothing else; the headers of `cwebp` and `FFmpeg`, whose probes
failed too, are never written. -/
theorem all_absent_reports_one_tool_only :
    allAbsent "cwebp -version" ≠ none ∧ allAbsent "ffmpeg -version" ≠ none ∧
      stderrOf (run ⟨"linux"⟩ allAbsent probes).proc =
        ["Zstd CLI is not installed. Please install it before proceeding:",
          "For Linux: sudo apt-get install zstd"] ∧
      "cwebp (WebP encoder) is not installed. Please install it before proceeding:" ∉
        stderrOf (run ⟨"linux"⟩ allAbsent probes).proc ∧
      "FFmpeg is not installed. Please install it before proceeding:" ∉
        stderrOf (run ⟨"linux"⟩ allAbsent probes).proc := by
  decide

/-- C2, amended: on every platform and for every completion order the error
stream holds the not-installed block (header, then platform hint) of exactly
one tool, the first in completion order whose probe failed, and nothing for
any other tool; it is empty when no probe failed. -/
theorem stderr_is_block_of_first_failure (os : Os) (outcome : String → Option ExecError)
    (order : List String) (h : order.Perm probes) :
    (order.find? (fun c => (outcome c).isSome) = none →
      stderrOf (run os outcome order).proc = []) ∧
    (order.find? (fun c => (outcome c).isSome) = some "zstd --version" →
      stderrOf (run os outcome order).proc =
        ["Zstd CLI is not installed. Please install it before proceeding:",
          zstdHint os.platform]) ∧
    (order.find? (fun c => (outcome c).isSome) = some "cwebp -version" →
      stderrOf (run os outcome order).proc =
        ["cwebp (WebP encoder) is not installed. Please install it before proceeding:",
          cwebpHint os.platform]) ∧
    (order.find? (fun c => (outcome c).isSome) = some "ffmpeg -version" →
      stderrOf (run os outcome order).proc =
        ["FFmpeg is not installed. Please install it before proceeding:",
          ffmpegHint os.platform]) ∧
    (stderrOf (run os outcome order).proc).length =
      (if outcome "zstd --version" = none ∧ outcome "cwebp -version" = none ∧
          outcome "ffmpeg -version" = none then 0 else 2) := by
  rcases perm_three _ _ _ _ h with rfl | rfl | rfl | rfl | rfl | rfl <;>
  rcases hz : outcome "zstd --version" with _ | ez <;>
  rcases hc : outcome "cwebp -version" with _ | ec <;>
  rcases hf : outcome "ffmpeg -version" with _ | ef <;>
  simp [run, eventLoop, main_eq, complete, takePending, hz, hc, hf, zstdCallback_none,
    cwebpCallback_none, ffmpegCallback_none, zstdCallback_some, cwebpCallback_some,
    ffmpegCallback_some, stderrOf, List.find?]

/-- C2, amended, at a concrete run: nothing is installed on a Linux host and
`cwebp` answers first; only `cwebp` is reported. -/
theorem stderr_is_block_of_first_failure_witness :
    stderrOf (run ⟨"linux"⟩ allAbsent
        ["cwebp -version", "ffmpeg -version", "zstd --version"]).proc =
      ["cwebp (WebP encoder) is not installed. Please install it before proceeding:",
        "For Linux: sudo apt-get install webp"] :=
  (stderr_is_block_of_first_failure ⟨"linux"⟩ allAbsent
    ["cwebp -version", "ffmpeg -version", "zstd --version"] (by decide)).2.2.1 (by decide)

/-- C4 as stated fails: `cwebp` alone is missing and its callback completes
first; the process exits before the other two callbacks run, and standard
output holds no confirmation line at all. -/
theorem cwebp_first_leaves_stdout_empty :
    onlyCwebpAbsent "zstd --version" = none ∧ onlyCwebpAbsent "cwebp -version" ≠ none ∧
      onlyCwebpAbsent "ffmpeg -version" = none ∧
      List.Perm ["cwebp -version", "zstd --version", "ffmpeg -version"] probes ∧
      stdoutOf (run ⟨"linux"⟩ onlyCwebpAbsent
        ["cwebp -version", "zstd --version", "ffmpeg -version"]).proc = [] := by
  decide

/-- C4, amended: when the `cwebp` probe alone fails, then on every platform and
for every completion order standard output holds the confirmation lines of
those of Zstd and FFmpeg whose callbacks completed before that of `cwebp`
(both of them when `cwebp` completes last), the error stream holds exactly the
`cwebp` block, and the exit code is `1`. -/
theorem only_cwebp_absent_output (os : Os) (outcome : String → Option ExecError)
    (order : List String) (h : order.Perm probes)
    (hz : outcome "zstd --version" = none) (hc : outcome "cwebp -version" ≠ none)
    (hf : outcome "ffmpeg -version" = none) :
    stdoutOf (run os outcome order).proc =
        (order.takeWhile (fun c => c != "cwebp -version")).map installedLine ∧
      (order.getLast? = some "cwebp -version" →
        (stdoutOf (run os outcome order).proc).Perm
          ["Zstd CLI is installed.", "FFmpeg CLI is installed."]) ∧
      stderrOf (run os outcome order).proc =
        ["cwebp (WebP encoder) is not installed. Please install it before proceeding:",
          cwebpHint os.platform] ∧
      (run os outcome order).exitCode = some 1 := by
  obtain ⟨e, he⟩ := Option.ne_none_iff_exists'.1 hc
  have hout : stdoutOf (run os outcome order).proc =
      (order.takeWhile (fun c => c != "cwebp -version")).map installedLine := by
    rcases perm_three _ _ _ _ h with rfl | rfl | rfl | rfl | rfl | rfl <;>
    simp [run, eventLoop, main_eq, complete, takePending, hz, he, hf, zstdCallback_none,
      ffmpegCallback_none, cwebpCallback_some, stdoutOf, installedLine, List.takeWhile]
  refine ⟨hout, ?_, ?_, ?_⟩
  · intro hlast
    rw [hout]
    rcases perm_three _ _ _ _ h with rfl | rfl | rfl | rfl | rfl | rfl <;>
    (revert hlast; decide)
  · rcases perm_three _ _ _ _ h with rfl | rfl | rfl | rfl | rfl | rfl <;>
    simp [run, eventLoop, main_eq, complete, takePending, hz, he, hf, zstdCallback_none,
      ffmpegCallback_none, cwebpCallback_some, stderrOf]
  · rw [exitCode_run os outcome order h]
    simp [he]

/-- C4, amended, at a concrete run: `cwebp` alone is missing on Windows and
its callback completes between the other two. -/
theorem only_cwebp_absent_output_witness :
    stdoutOf (run ⟨"win32"⟩ onlyCwebpAbsent
        ["zstd --version", "cwebp -version", "ffmpeg -version"]).proc =
        ["Zstd CLI is installed."] ∧
      (run ⟨"win32"⟩ onlyCwebpAbsent
        ["zstd --version", "cwebp -version", "ffmpeg -version"]).exitCode = some 1 :=
  have h := only_cwebp_absent_output ⟨"win32"⟩ onlyCwebpAbsent
    ["zstd --version", "cwebp -version", "ffmpeg -version"] (by decide) rfl (by decide) rfl
  ⟨h.1, h.2.2.2⟩

/-- C8 as stated fails: the same Linux host (`zstd` and `cwebp` missing,
`ffmpeg` installed) is checked twice, and the callbacks complete in a different
order; the first run confirms FFmpeg and reports `zstd`, the second confirms
nothing and reports `cwebp`. -/
theorem same_host_different_reports :
    List.Perm ["ffmpeg -version", "zstd --version", "cwebp -version"] probes ∧
      List.Perm ["cwebp -version", "zstd --version", "ffmpeg -version"] probes ∧
      stdoutOf (run ⟨"linux"⟩ zstdAndCwebpAbsent
        ["ffmpeg -version", "zstd --version", "cwebp -version"]).proc =
        ["FFmpeg CLI is installed."] ∧
      stdoutOf (run ⟨"linux"⟩ zstdAndCwebpAbsent
        ["cwebp -version", "zstd --version", "ffmpeg -version"]).proc = [] ∧
      stderrOf (run ⟨"linux"⟩ zstdAndCwebpAbsent
        ["ffmpeg -version", "zstd --version", "cwebp -version"]).proc =
        ["Zstd CLI is not installed. Please install it before proceeding:",
          "For Linux: sudo apt-get install zstd"] ∧
      stderrOf (run ⟨"linux"⟩ zstdAndCwebpAbsent
        ["cwebp -version", "zstd --version", "ffmpeg -version"]).proc =
        ["cwebp (WebP encoder) is not installed. Please install it before proceeding:",
          "For Linux: sudo apt-get install webp"] := by
  decide

/-- C8, amended: two runs with the same probe outcomes and the same platform
end with the same exit code, whatever the two completion orders.  Their error
streams are the same exactly when the first probe to fail in completion order
is the same in both runs, hence always when at most one probe fails.  They
confirm the same tools exactly when the same tools complete before the first
failing probe in both runs, hence always when all three probes succeed.  Their
whole histories are the same exactly when the completions up to and including
the first failing probe are the same. -/
theorem same_host_same_exit_code (os : Os) (outcome : String → Option ExecError)
    (order₁ order₂ : List String) (h₁ : order₁.Perm probes) (h₂ : order₂.Perm probes) :
    (run os outcome order₁).exitCode = (run os outcome order₂).exitCode ∧
    (stderrOf (run os outcome order₁).proc = stderrOf (run os outcome order₂).proc ↔
      order₁.find? (fun c => (outcome c).isSome) =
        order₂.find? (fun c => (outcome c).isSome)) ∧
    ((∀ c ∈ probes, (installedLine c ∈ stdoutOf (run os outcome order₁).proc ↔
          installedLine c ∈ stdoutOf (run os outcome order₂).proc)) ↔
      (∀ c ∈ probes, (c ∈ order₁.takeWhile (fun c => (outcome c).isNone) ↔
          c ∈ order₂.takeWhile (fun c => (outcome c).isNone)))) ∧
    ((run os outcome order₁).proc = (run os outcome order₂).proc ↔
      (order₁.takeWhile (fun c => (outcome c).isNone) =
          order₂.takeWhile (fun c => (outcome c).isNone) ∧
        order₁.find? (fun c => (outcome c).isSome) =
          order₂.find? (fun c => (outcome c).isSome))) ∧
    ((outcome "zstd --version" = none ∧ outcome "cwebp -version" = none) ∨
        (outcome "zstd --version" = none ∧ outcome "ffmpeg -version" = none) ∨
        (outcome "cwebp -version" = none ∧ outcome "ffmpeg -version" = none) →
      stderrOf (run os outcome order₁).proc = stderrOf (run os outcome order₂).proc) ∧
    (outcome "zstd --version" = none ∧ outcome "cwebp -version" = none ∧
        outcome "ffmpeg -version" = none →
      (∀ line, line ∈ stdoutOf (run os outcome order₁).proc ↔
          line ∈ stdoutOf (run os outcome order₂).proc) ∧
        stderrOf (run os outcome order₁).proc = [] ∧
        stderrOf (run os outcome order₂).proc = []) := by
  have herr := stderr_eq_iff_first_failure os outcome order₁ order₂ h₁ h₂
  have ht₁ := takeWhile_mem_probes order₁ h₁ (fun c => (outcome c).isNone)
  have ht₂ := takeWhile_mem_probes order₂ h₂ (fun c => (outcome c).isNone)
  refine ⟨?_, herr, ?_, ?_, ?_, ?_⟩
  · rw [exitCode_run os outcome order₁ h₁, exitCode_run os outcome order₂ h₂]
  · rw [stdout_run os outcome order₁ h₁, stdout_run os outcome order₂ h₂]
    constructor
    · intro h c hc
      rw [← mem_map_installedLine _ ht₁ c hc, ← mem_map_installedLine _ ht₂ c hc]
      exact h c hc
    · intro h c hc
      rw [mem_map_installedLine _ ht₁ c hc, mem_map_installedLine _ ht₂ c hc]
      exact h c hc
  · constructor
    · intro hproc
      have hout : stdoutOf (run os outcome order₁).proc =
          stdoutOf (run os outcome order₂).proc := by rw [hproc]
      have herr' : stderrOf (run os outcome order₁).proc =
          stderrOf (run os outcome order₂).proc := by rw [hproc]
      rw [stdout_run os outcome order₁ h₁, stdout_run os outcome order₂ h₂] at hout
      exact ⟨map_installedLine_inj _ _ ht₁ ht₂ hout, herr.1 herr'⟩
    · rintro ⟨htake, hfind⟩
      rw [run_cut os outcome order₁ h₁, run_cut os outcome order₂ h₂, htake, hfind]
  · intro hone
    apply herr.2
    rw [first_failure_of_two_present outcome order₁ h₁ hone,
      first_failure_of_two_present outcome order₂ h₂ hone]
  · rintro ⟨hz, hc, hf⟩
    refine ⟨?_, stderr_all_present os outcome order₁ h₁ hz hc hf,
      stderr_all_present os outcome order₂ h₂ hz hc hf⟩
    intro line
    rw [stdout_all_present os outcome order₁ h₁ hz hc hf,
      stdout_all_present os outcome order₂ h₂ hz hc hf]
    exact ((h₁.trans h₂.symm).map installedLine).mem_iff

/-- C8, amended, at a concrete pair of runs: `cwebp` alone is missing on macOS
and answers last in both runs, `zstd` and `ffmpeg` answering in either order;
both runs report `cwebp` and confirm the same two tools. -/
theorem same_host_same_exit_code_witness :
    stderrOf (run ⟨"darwin"⟩ onlyCwebpAbsent
        ["zstd --version", "ffmpeg -version", "cwebp -version"]).proc =
      stderrOf (run ⟨"darwin"⟩ onlyCwebpAbsent
        ["ffmpeg -version", "zstd --version", "cwebp -version"]).proc ∧
    (∀ c ∈ probes,
      (installedLine c ∈ stdoutOf (run ⟨"darwin"⟩ onlyCwebpAbsent
          ["zstd --version", "ffmpeg -version", "cwebp -version"]).proc ↔
        installedLine c ∈ stdoutOf (run ⟨"darwin"⟩ onlyCwebpAbsent
          ["ffmpeg -version", "zstd --version", "cwebp -version"]).proc)) :=
  have h := same_host_same_exit_code ⟨"darwin"⟩ onlyCwebpAbsent
    ["zstd --version", "ffmpeg -version", "cwebp -version"]
    ["ffmpeg -version", "zstd --version", "cwebp -version"] (by decide) (by decide)
  ⟨h.2.2.2.2.1 (Or.inr (Or.inl ⟨rfl, rfl⟩)), h.2.2.1.2 (by decide)⟩

/-- C9: the script fails fast.  In every run the history is the three
launches, then confirmation lines on standard output, then at most one
not-installed block on the error stream, that of a tool whose probe failed,
written by a process that has exited with code `1`.  Once a process has
exited, the callbacks that complete later change nothing, and the callback of
a failing probe that has not completed before always leaves the process
exited. -/
theorem fail_fast (os : Os) (outcome : String → Option ExecError) (order : List String) :
    (run os outcome order).proc.events =
        [Event.spawn "zstd --version", Event.spawn "cwebp -version",
          Event.spawn "ffmpeg -version"] ++
          (stdoutOf (run os outcome order).proc).map Event.stdout ++
          (stderrOf (run os outcome order).proc).map Event.stderr ∧
    (stderrOf (run os outcome order).proc = [] ∨
      ((run os outcome order).proc.exited = some 1 ∧
        ((outcome "zstd --version" ≠ none ∧ stderrOf (run os outcome order).proc =
            ["Zstd CLI is not installed. Please install it before proceeding:",
              zstdHint os.platform]) ∨
          (outcome "cwebp -version" ≠ none ∧ stderrOf (run os outcome order).proc =
            ["cwebp (WebP encoder) is not installed. Please install it before proceeding:",
              cwebpHint os.platform]) ∨
          (outcome "ffmpeg -version" ≠ none ∧ stderrOf (run os outcome order).proc =
            ["FFmpeg is not installed. Please install it before proceeding:",
              ffmpegHint os.platform])))) ∧
    (∀ before after : List String, order = before ++ after →
      (run os outcome before).proc.exited ≠ none →
        run os outcome order = run os outcome before) ∧
    (∀ (before : List String) (command : String), command ∈ probes → command ∉ before →
      outcome command ≠ none →
        (run os outcome (before ++ [command])).proc.exited = some 1) := by
  obtain ⟨outs, errs, hevs, hcase⟩ := (run_inv os outcome order).2
  have hpre₁ : ∀ ev ∈ [Event.spawn "zstd --version", Event.spawn "cwebp -version",
      Event.spawn "ffmpeg -version"], ∀ l, ev ≠ Event.stdout l := by
    intro ev hev l
    simp only [List.mem_cons, List.mem_singleton, List.not_mem_nil, or_false] at hev
    rcases hev with rfl | rfl | rfl <;> simp
  have hpre₂ : ∀ ev ∈ [Event.spawn "zstd --version", Event.spawn "cwebp -version",
      Event.spawn "ffmpeg -version"], ∀ l, ev ≠ Event.stderr l := by
    intro ev hev l
    simp only [List.mem_cons, List.mem_singleton, List.not_mem_nil, or_false] at hev
    rcases hev with rfl | rfl | rfl <;> simp
  have hproc : (run os outcome order).proc =
      ⟨[Event.spawn "zstd --version", Event.spawn "cwebp -version",
        Event.spawn "ffmpeg -version"] ++ outs.map Event.stdout ++ errs.map Event.stderr,
        (run os outcome order).proc.exited⟩ := by
    rw [← hevs]
  have hout : stdoutOf (run os outcome order).proc = outs := by
    rw [hproc]
    exact stdoutOf_shape _ hpre₁ outs errs _
  have herr : stderrOf (run os outcome order).proc = errs := by
    rw [hproc]
    exact stderrOf_shape _ hpre₂ outs errs _
  refine ⟨?_, ?_, ?_, ?_⟩
  · rw [hout, herr]
    exact hevs
  · rw [herr]
    rcases hcase with ⟨_, h⟩ | ⟨h, hblock⟩
    · exact Or.inl h
    · exact Or.inr ⟨h, hblock⟩
  · intro before after e hex
    rw [e]
    exact run_frozen os outcome before after hex
  · intro before command hmem hnot hfail
    exact run_fail_exits os outcome before command hmem hnot hfail

/-- C9 at a concrete run: `cwebp` alone is missing and completes second; after
its callback the process has exited, and the completion of `ffmpeg` adds
nothing. -/
theorem fail_fast_witness :
    (run ⟨"linux"⟩ onlyCwebpAbsent ["zstd --version", "cwebp -version"]).proc.exited =
        some 1 ∧
      run ⟨"linux"⟩ onlyCwebpAbsent ["zstd --version", "cwebp -version", "ffmpeg -version"] =
        run ⟨"linux"⟩ onlyCwebpAbsent ["zstd --version", "cwebp -version"] :=
  have h := fail_fast ⟨"linux"⟩ onlyCwebpAbsent
    ["zstd --version", "cwebp -version", "ffmpeg -version"]
  have hex : (run ⟨"linux"⟩ onlyCwebpAbsent
      ["zstd --version", "cwebp -version"]).proc.exited = some 1 :=
    h.2.2.2 ["zstd --version"] "cwebp -version" (by decide) (by decide) (by decide)
  ⟨hex, h.2.2.1 ["zstd --version", "cwebp -version"] ["ffmpeg -version"] rfl
    (by rw [hex]; simp)⟩

/-- C10: in every run, whatever the probes answer, exactly three children are
launched, `zstd --version`, `cwebp -version` and `ffmpeg -version`, in this
order and each once; the three launches are the whole of the module top level,
which leaves the three callbacks waiting, and nothing that happens afterwards
is a launch. -/
theorem three_probes_launched_once (os : Os) (outcome : String → Option ExecError)
    (order : List String) :
    (main os).proc.events =
        [Event.spawn "zstd --version", Event.spawn "cwebp -version",
          Event.spawn "ffmpeg -version"] ∧
    (main os).pending.map Prod.fst =
        ["zstd --version", "cwebp -version", "ffmpeg -version"] ∧
    spawnedOf (run os outcome order).proc =
        ["zstd --version", "cwebp -version", "ffmpeg -version"] ∧
    (∃ later : List Event,
      (run os outcome order).proc.events =
          [Event.spawn "zstd --version", Event.spawn "cwebp -version",
            Event.spawn "ffmpeg -version"] ++ later ∧
        ∀ ev ∈ later, ∀ command, ev ≠ Event.spawn command) := by
  obtain ⟨outs, errs, hevs, _⟩ := (run_inv os outcome order).2
  refine ⟨by rw [main_eq], by rw [main_eq]; rfl, ?_, ?_⟩
  · have hproc : (run os outcome order).proc =
        ⟨[Event.spawn "zstd --version", Event.spawn "cwebp -version",
          Event.spawn "ffmpeg -version"] ++ outs.map Event.stdout ++ errs.map Event.stderr,
          (run os outcome order).proc.exited⟩ := by
      rw [← hevs]
    rw [hproc]
    exact spawnedOf_shape outs errs _
  · refine ⟨outs.map Event.stdout ++ errs.map Event.stderr, ?_, ?_⟩
    · rw [hevs, List.append_assoc]
    · intro ev hev command
      rcases List.mem_append.1 hev with hin | hin
      · rcases List.mem_map.1 hin with ⟨y, _, rfl⟩
        simp
      · rcases List.mem_map.1 hin with ⟨y, _, rfl⟩
        simp

end CheckLibs
